import Mathlib

/-!
Verification of the task-clustering batch schedulers.

Shallow embedding of the scheduling core of the `task_clustering_batch_simulator`
repository:

* `src/src/ZhangClusteringAlgorithm/ZhangClusteringWMS.cpp` (dynamic grouping scheduler)
* `src/src/LevelByLevelAlgorithm/LevelByLevelWMS.cpp` (level-by-level scheduler)
* `src/src/StaticClusteringAlgorithms/StaticClusteringWMS.h` (declarations only)

Doubles are modelled as rationals, the external collaborators (workflow graph view,
batch reservation service with its wait-time estimator, `WorkflowUtil::estimateMakespan`,
`ClusteredJob::estimateMakespan`) as environment functions, and each C++ event handler
as a function from an explicit scheduler state to `Except` of a new state plus the
requests it emits.  Raw pointers to placeholder/pilot jobs are modelled by unique
numeric job ids; `std::set` / `std::map` iteration order is modelled by list order.
-/

/-- `wrench::WorkflowTask::State` (the four states the scheduling core inspects). -/
inductive TaskState where
  | notReady
  | ready
  | running
  | completed
deriving DecidableEq, Repr

/-- A workflow task as seen through the read-only Task Graph View:
identity, cost in flops, topological (top) level, current state. -/
structure WTask where
  tid : Nat
  flops : ℚ
  level : Nat
  tstate : TaskState
deriving DecidableEq, Repr

/-- Snapshot of the workflow graph at one event-handler invocation. -/
structure Workflow where
  tasks : List WTask
  numLevels : Nat
deriving DecidableEq, Repr

/-- `getWorkflow()->getTasksInTopLevelRange(l, l)`. -/
def Workflow.tasksInLevel (wf : Workflow) (l : Nat) : List WTask :=
  wf.tasks.filter (fun t => t.level = l)

/-- Look a task up by id. -/
def Workflow.findTask (wf : Workflow) (tid : Nat) : Option WTask :=
  wf.tasks.find? (fun t => t.tid = tid)

/-- `task->getState()` for a task referenced by id. -/
def Workflow.stateOf (wf : Workflow) (tid : Nat) : TaskState :=
  match wf.findTask tid with
  | some t => t.tstate
  | none => TaskState.notReady

/-- `task->getFlops()` for a task referenced by id. -/
def Workflow.flopsOf (wf : Workflow) (tid : Nat) : ℚ :=
  match wf.findTask tid with
  | some t => t.flops
  | none => 0

/-- The error conditions raised (`throw`) by the scheduling core, plus the two
undefined-behaviour spots that the C++ can reach (modelled as explicit errors).
Each constructor is documented with the C++ message it stands for. -/
inductive WmsError where
  /-- `"Could not obtain start time estimate... aborting"` -/
  | estimationFailure
  /-- Zhang: `"Fatal Error: couldn't find a placeholder job for a pilob job that just started"` -/
  | noPlaceholderForStartedPilot
  /-- `"Got a pilot job expiration, but no matching placeholder job found"` -/
  | noPlaceholderForExpiredPilot
  /-- `"Got a task completion, but couldn't find a placeholder for the task, and we're not in individual mode"` -/
  | noPlaceholderForCompletedTask
  /-- `"createPlaceHolderJobsForLevel(): Invalid clustering spec ..."` (`std::runtime_error`) -/
  | invalidClusteringSpec
  /-- `"Invalid static:hc specification"` (`std::invalid_argument`) -/
  | invalidHCSpec
  /-- UB: `ongoing_levels[level_to_submit - 1]` default-constructs a null `OngoingLevel*`
  which is then dereferenced (level-by-level `submitPilotJobsForNextLevel`) -/
  | nullBucketDeref
  /-- UB: `tokens[0]` read from an empty token vector -/
  | emptyTokensOutOfBounds
deriving DecidableEq, Repr

/-- A submission sent to the batch service (`JobManager::submitJob(..., batch_service,
service_specific_args)`): the `"-N"`, `"-c"`, `"-t"` arguments, the tasks the request
is meant to run, and whether it is a pilot (reservation) job or a direct standard job. -/
structure BatchRequest where
  nodes : Nat
  cores : Nat
  minutes : Nat
  taskIds : List Nat
  isPilot : Bool
deriving DecidableEq, Repr

/-- The `"-t"` wall-time argument: `1 + ((unsigned long) durationSeconds) / 60`.
The C cast truncates the (nonnegative) double toward zero, modelled by `Nat.floor`,
and `/ 60` is C integer division. -/
def wallTimeMinutes (durationSeconds : ℚ) : Nat :=
  1 + (Nat.floor durationSeconds) / 60

/-- `EXECUTION_TIME_FUDGE_FACTOR` (1.1, both schedulers). -/
def fudgeFactor : ℚ := 11 / 10

namespace ZhangWMS

/-- `ZhangPlaceHolderJob`: a pilot job (by id), the tasks aggregated for the level
range, the range itself, and the `"-N"` / `"-t"` arguments it was submitted with
(read back by `getServiceSpecificArguments()` in the expiration handler). -/
structure ZPlaceHolder where
  jobId : Nat
  taskIds : List Nat
  startLevel : Nat
  endLevel : Nat
  reqNodes : Nat
  reqMinutes : Nat
deriving DecidableEq, Repr

/-- The `Simulator` counters the Zhang WMS updates. -/
structure ZStats where
  total_queue_wait_time : ℚ
  used_node_seconds : ℚ
  wasted_node_seconds : ℚ
  num_pilot_job_expirations_with_remaining_tasks_to_do : Nat
deriving DecidableEq, Repr

/-- Mutable state of `ZhangClusteringWMS`, including the file-scope statics
`parent_runtime` and `sequence`. `nextJobId` models `createPilotJob` handing out
fresh pilot-job identities. -/
structure ZState where
  individual_mode : Bool
  pending_placeholder_job : Option ZPlaceHolder
  running_placeholder_jobs : List ZPlaceHolder
  parent_runtime : ℚ
  sequence : Nat
  nextJobId : Nat
  stats : ZStats
deriving DecidableEq, Repr

/-- External collaborators of the Zhang WMS, fixed during one handler invocation:
the workflow snapshot, the batch service (host count, core speed, start-time
estimator keyed by the unique sequence number), `WorkflowUtil::estimateMakespan`
(a function of the level range and the chosen parallelism), the current simulated
date, the queue-wait contribution of a pilot job that just started, the task
children query, the `overlap` / `plimit` flags, and the value observed when the
uninitialized local `leeway` of `groupLevels` is read. -/
structure ZEnv where
  wf : Workflow
  number_of_hosts : Nat
  core_speed : ℚ
  makespan : Nat → Nat → Nat → ℚ
  startTimeEstimate : Nat → Nat → ℚ → ℚ
  currentDate : ℚ
  queueWaitOf : Nat → ℚ
  children : Nat → List Nat
  overlap : Bool
  plimit : Bool
  garbageLeeway : ℚ

/-- Everything a handler invocation produces besides the new state:
reservation (or individual standard-job) requests submitted to the batch service,
standard jobs dispatched into an already-running reservation (task ids), and
`terminateJob` calls (pilot-job ids). -/
structure ZOut where
  state : ZState
  requests : List BatchRequest
  dispatches : List Nat
  cancels : List Nat
deriving DecidableEq, Repr

/-- `ZhangClusteringWMS::maxParallelism` (lines 584-592): the maximum per-level
task count over `[start_level, end_level]`, capped at the number of hosts. -/
def maxParallelism (env : ZEnv) (start_level end_level : Nat) : Nat :=
  let parallelism := (List.range' start_level (end_level + 1 - start_level)).foldl
    (fun acc i => max acc (env.wf.tasksInLevel i).length) 0
  min parallelism env.number_of_hosts

/-- `ZhangClusteringWMS::estimateWaitTime` (lines 543-556): queries the batch
service's start-time estimator with a key made unique by the incremented
`sequence` counter, aborts on a negative estimate, and clamps the wait time at 0.
Returns the estimate together with the incremented sequence counter. -/
def estimateWaitTime (env : ZEnv) (parallelism : Nat) (makespan : ℚ) (seq : Nat) :
    Except WmsError (ℚ × Nat) :=
  let est := env.startTimeEstimate seq parallelism makespan
  if est < 0 then Except.error WmsError.estimationFailure
  else Except.ok (max 0 (est - env.currentDate), seq + 1)

/-- The `all_completed` test of `getStartLevel` (lines 563-568): every task of
level `i` is `COMPLETED`. -/
def levelAllCompleted (env : ZEnv) (i : Nat) : Bool :=
  (env.wf.tasksInLevel i).all (fun t => t.tstate = TaskState.completed)

/-- `ZhangClusteringWMS::getStartLevel`, first loop (lines 560-572): `start_level`
is overwritten with `i + 1` for every level `i` (scanned in increasing order)
whose tasks are all `COMPLETED`. -/
def startLevelBase (env : ZEnv) : Nat :=
  (List.range env.wf.numLevels).foldl
    (fun acc i => if levelAllCompleted env i then i + 1 else acc) 0

/-- `ZhangClusteringWMS::getStartLevel` (lines 559-579): the first-loop result,
then for each running placeholder job (set-iteration order modelled by list
order) `start_level = 1 + max(start_level, ph->end_level)`. -/
def getStartLevel (env : ZEnv) (running : List ZPlaceHolder) : Nat :=
  running.foldl (fun acc ph => 1 + max acc ph.endLevel) (startLevelBase env)

/-- Loop state of `ZhangClusteringWMS::groupLevels` (lines 595-688): the `[0]`
slots of the `peel_wait_time` / `peel_runtime` / `real_runtime` arrays, the
`giant` flag, the local `leeway` (which the C++ declares uninitialized and
never resets between iterations), the `[1]` slots as last written, and the
`sequence` counter. -/
structure GLSt where
  pw0 : ℚ
  pr0 : ℚ
  rr0 : ℚ
  giant : Bool
  leeway : ℚ
  lastW : ℚ
  lastR : ℚ
  seq : Nat
deriving DecidableEq, Repr

/-- Outcome of one `groupLevels` loop iteration: `brk` models the `break`
(lines 668/670, with the current `peel_wait_time[1]`, `peel_runtime[1]` and the
final sequence counter), `next` models falling through to `candidate_end_level++`. -/
inductive GLIterOut where
  | brk (w r : ℚ) (seq : Nat)
  | next (st : GLSt)
deriving DecidableEq, Repr

/-- The single-step leeway rule (lines 638-646): when there is a parent
reservation still running and its remaining runtime exceeds the candidate's
wait time, the shortfall becomes the new leeway; on the other branches
`leeway` keeps its previous value (the C++ never resets it). -/
def glLeeway (parent leeway0 pw1 : ℚ) : ℚ :=
  if parent ≤ 0 then leeway0
  else if parent > pw1 then parent - pw1
  else leeway0

/-- The pure decision tail of a `groupLevels` loop iteration (lines 655-676):
compute the net wait time, keep growing while `giant` holds and net wait
exceeds runtime, otherwise break on an exceeded efficiency ratio (evaluated
only when the wait exceeds the parent-runtime floor), else shift the `[1]`
slots into `[0]` and continue with `giant` off.  `rr1` is `real_runtime[1]`
(the makespan before leeway inflation), `pr1`/`pw1` are the possibly inflated
`peel_runtime[1]` / `peel_wait_time[1]`. -/
def glDecide (st : GLSt) (parent wAll rAll rr1 pr1 pw1 leeway : ℚ) (seq2 : Nat) :
    GLIterOut :=
  let real_wait := if pw1 - parent < 0 then pw1 else pw1 - parent
  if st.giant ∧ real_wait > rr1 then
    GLIterOut.next { st with leeway := leeway, lastW := pw1, lastR := pr1, seq := seq2 }
  else if pw1 - parent > 0 ∧ (pw1 / rr1 > st.pw0 / st.rr0 ∨ pw1 / rr1 > wAll / rAll) then
    GLIterOut.brk pw1 pr1 seq2
  else
    GLIterOut.next
      { pw0 := pw1, pr0 := pr1, rr0 := rr1, giant := false,
        leeway := leeway, lastW := pw1, lastR := pr1, seq := seq2 }

/-- One iteration of the `groupLevels` while-loop (lines 606-676) at candidate
end level `c`: recompute parallelism and makespan for `[s, c]`, query the wait
time, apply the single-step leeway rule against `parent_runtime` and — when it
yields a positive leeway — inflate the requested runtime and re-query the wait
time, then decide.  (The `overlap` local computed at line 620 is dead and does
not influence the result; its read of the uninitialized `leeway` is analysed
separately by `glIterUninitRead`.) -/
def glIter (env : ZEnv) (parent wAll rAll : ℚ) (s c : Nat) (st : GLSt) :
    Except WmsError GLIterOut :=
  let mp := maxParallelism env s c
  let pr1 := env.makespan s c mp
  let rr1 := pr1
  match estimateWaitTime env mp pr1 st.seq with
  | Except.error e => Except.error e
  | Except.ok (pw1, seq1) =>
    let leeway := glLeeway parent st.leeway pw1
    if leeway > 0 then
      match estimateWaitTime env mp (pr1 + leeway) seq1 with
      | Except.error e => Except.error e
      | Except.ok (pw1a, seq2) =>
        Except.ok (glDecide st parent wAll rAll rr1 (pr1 + leeway) pw1a leeway seq2)
    else
      Except.ok (glDecide st parent wAll rAll rr1 pr1 pw1 leeway seq1)

/-- Result assembly after the `groupLevels` loop (lines 678-687): `giant` yields
`(0, 0, end_level)`, otherwise the last `[1]` slots and the candidate reached. -/
def glExit (e : Nat) (st : GLSt) (c : Nat) : ℚ × ℚ × Nat × Nat :=
  if st.giant then (0, 0, e, st.seq) else (st.lastW, st.lastR, c, st.seq)

/-- The `groupLevels` while-loop, fueled by `e - c` (the candidate strictly
increases each iteration, so `e - s` steps suffice). -/
def glLoop (env : ZEnv) (parent wAll rAll : ℚ) (s e : Nat) :
    Nat → Nat → GLSt → Except WmsError (ℚ × ℚ × Nat × Nat)
  | 0, c, st => Except.ok (glExit e st c)
  | fuel + 1, c, st =>
    if c < e then
      match glIter env parent wAll rAll s c st with
      | Except.error err => Except.error err
      | Except.ok (GLIterOut.brk w r seq) => Except.ok (w, r, c, seq)
      | Except.ok (GLIterOut.next st2) => glLoop env parent wAll rAll s e fuel (c + 1) st2
    else Except.ok (glExit e st c)

/-- `ZhangClusteringWMS::groupLevels` (lines 595-688).  `runtimeAll`/`waitAll`
are the whole-remainder estimates handed over in `peel_runtime[0]` /
`peel_wait_time[0]`; the result is `(wait_time, makespan, end_level)` plus the
final `sequence` counter.  The uninitialized local `leeway` starts at the
arbitrary garbage value `env.garbageLeeway`. -/
def groupLevels (env : ZEnv) (parent : ℚ) (s e : Nat) (runtimeAll waitAll : ℚ)
    (seq : Nat) : Except WmsError (ℚ × ℚ × Nat × Nat) :=
  glLoop env parent waitAll runtimeAll s e (e - s) s
    { pw0 := waitAll, pr0 := runtimeAll, rr0 := runtimeAll, giant := true,
      leeway := env.garbageLeeway, lastW := 0, lastR := 0, seq := seq }

/-- Initialization-instrumented rendering of the first `groupLevels` loop
iteration (lines 606-654), used to settle whether the local `leeway` — declared
at line 599 without an initializer — can be read before it is first assigned.
`leeway` is carried as an `Option`: `none` means "not yet assigned".  The
returned boolean is `true` iff some read of `leeway` happened while it was still
unassigned: the dead `overlap` computation at line 620 reads it, and so does the
`leeway > 0` guard at line 649 (on the paths of lines 638-646 that do not
assign it). -/
def glIterUninitRead (env : ZEnv) (parent : ℚ) (s c : Nat) (seq : Nat) :
    Except WmsError Bool :=
  let leeway : Option ℚ := none
  let mp := maxParallelism env s c
  let pr1 := env.makespan s c mp
  match estimateWaitTime env mp pr1 seq with
  | Except.error e => Except.error e
  | Except.ok (pw1, _) =>
    -- line 620 reads `leeway`:
    -- `double overlap = (peel_runtime[1] + peel_wait_time[1] + leeway) - parent_runtime;`
    let read620 := leeway.isNone
    let leeway2 := if parent ≤ 0 then leeway
      else if parent > pw1 then some (parent - pw1)
      else leeway
    -- line 649 reads `leeway` in `if (leeway > 0)`
    let read649 := leeway2.isNone
    Except.ok (read620 || read649)

/-- The block of `applyGroupingHeuristic` (lines 142-154) and of
`processEventStandardJobCompletion` (lines 420-435) that submits every `READY`
task of the workflow as its own standard job with `-N 1 -c 1` and the
fudge-factored per-task wall time. -/
def readyIndividualRequests (env : ZEnv) : List BatchRequest :=
  (env.wf.tasks.filter (fun t => t.tstate = TaskState.ready)).map (fun t =>
    { nodes := 1, cores := 1,
      minutes := wallTimeMinutes (t.flops / env.core_speed * fudgeFactor),
      taskIds := [t.tid], isPilot := false })

/-- `ZhangClusteringWMS::createAndSubmitPlaceholderJob` (lines 166-213):
inflate the requested execution time by the fudge factor, store it into the
file-scope `parent_runtime`, aggregate the not-`COMPLETED` tasks of levels
`[start_level, end_level]`, submit one pilot job with `-N parallelism -c 1` and
the rounded-up wall time, and record the new pending placeholder job. -/
def createAndSubmitPlaceholderJob (env : ZEnv) (st : ZState)
    (requested_execution_time : ℚ) (requested_parallelism : Nat)
    (start_level end_level : Nat) : ZOut :=
  let ret := requested_execution_time * fudgeFactor
  let taskIds := ((List.range' start_level (end_level + 1 - start_level)).flatMap
    (fun l => (env.wf.tasksInLevel l).filter
      (fun t => t.tstate ≠ TaskState.completed))).map (fun t => t.tid)
  let minutes := wallTimeMinutes ret
  let ph : ZPlaceHolder :=
    { jobId := st.nextJobId, taskIds := taskIds, startLevel := start_level,
      endLevel := end_level, reqNodes := requested_parallelism, reqMinutes := minutes }
  ⟨{ st with pending_placeholder_job := some ph, parent_runtime := ret,
             nextJobId := st.nextJobId + 1 },
   [⟨requested_parallelism, 1, minutes, taskIds, true⟩], [], []⟩

/-- `ZhangClusteringWMS::applyGroupingHeuristic` (lines 65-157): skip when a
pending placeholder exists, when in individual mode, or when `overlap` is off
and something is running; otherwise run the level-peeling search and either
submit the accepted partial DAG as one pilot job or switch permanently to
individual mode and submit every ready task on its own. -/
def applyGroupingHeuristic (env : ZEnv) (st : ZState) : Except WmsError ZOut :=
  if st.pending_placeholder_job.isSome then Except.ok ⟨st, [], [], []⟩
  else if st.individual_mode then Except.ok ⟨st, [], [], []⟩
  else if (¬ env.overlap) ∧ st.running_placeholder_jobs ≠ [] then Except.ok ⟨st, [], [], []⟩
  else
    let start_level := getStartLevel env st.running_placeholder_jobs
    let end_level := env.wf.numLevels - 1
    if start_level > end_level then Except.ok ⟨st, [], [], []⟩
    else
      let mp := maxParallelism env start_level end_level
      let runtime_all := env.makespan start_level end_level mp
      match estimateWaitTime env mp runtime_all st.sequence with
      | Except.error e => Except.error e
      | Except.ok (wait_all, seq1) =>
        match groupLevels env st.parent_runtime start_level end_level runtime_all
            wait_all seq1 with
        | Except.error e => Except.error e
        | Except.ok (_, partial_dag_makespan, partial_dag_end_level, seq2) =>
          let mode := if partial_dag_end_level ≥ end_level then true
            else st.individual_mode
          let st2 := { st with sequence := seq2, individual_mode := mode }
          if ¬ mode then
            Except.ok (createAndSubmitPlaceholderJob env st2 partial_dag_makespan
              (maxParallelism env start_level partial_dag_end_level)
              start_level partial_dag_end_level)
          else
            Except.ok ⟨st2, readyIndividualRequests env, [], []⟩

/-- `ZhangClusteringWMS::processEventPilotJobStart` (lines 216-260): update the
queue-wait statistic, fail fatally when no pending placeholder job exists,
silently ignore a start for a non-pending (already cancelled) pilot job, and
otherwise move the pending job to running, dispatch its ready tasks, and re-run
the grouping heuristic. -/
def processEventPilotJobStart (env : ZEnv) (st : ZState) (eJobId : Nat) :
    Except WmsError ZOut :=
  let stats1 := { st.stats with
                  total_queue_wait_time := st.stats.total_queue_wait_time + env.queueWaitOf eJobId }
  match st.pending_placeholder_job with
  | none => Except.error WmsError.noPlaceholderForStartedPilot
  | some ph =>
    if eJobId ≠ ph.jobId then
      Except.ok ⟨{ st with stats := stats1 }, [], [], []⟩
    else
      let st2 := { st with stats := stats1,
                           running_placeholder_jobs := ph :: st.running_placeholder_jobs,
                           pending_placeholder_job := none }
      let dispatches := ph.taskIds.filter
        (fun tid => env.wf.stateOf tid = TaskState.ready)
      match applyGroupingHeuristic env st2 with
      | Except.error e => Except.error e
      | Except.ok out =>
        Except.ok ⟨out.state, out.requests, dispatches ++ out.dispatches, out.cancels⟩

/-- The expired placeholder-job lookup of `processEventPilotJobExpiration`
(lines 266-272): single loop with `break`, so the first match wins. -/
def findExpired (running : List ZPlaceHolder) (eJobId : Nat) : Option ZPlaceHolder :=
  running.find? (fun ph => ph.jobId = eJobId)

/-- The wasted-node-seconds accounting of `processEventPilotJobExpiration`
(lines 292-302): `60 * minutes * nodes` (parsed back from the expired pilot
job's `-t` / `-N` arguments) minus the work of the completed tasks. -/
def zhangWasted (env : ZEnv) (ph : ZPlaceHolder) : ℚ :=
  60 * (ph.reqMinutes : ℚ) * (ph.reqNodes : ℚ) -
    ((ph.taskIds.filter (fun tid => env.wf.stateOf tid = TaskState.completed)).map
      (fun tid => env.wf.flopsOf tid / env.core_speed)).sum

/-- `ZhangClusteringWMS::processEventPilotJobExpiration` (lines 262-354): find
the expired placeholder job (fatal if absent), remove it from the running set,
account wasted node-seconds, and — only if it still has not-`COMPLETED` tasks —
cancel the pending placeholder job (if any) and every running placeholder job
none of whose tasks has left `NOT_READY`, then re-run the grouping heuristic. -/
def processEventPilotJobExpiration (env : ZEnv) (st : ZState) (eJobId : Nat) :
    Except WmsError ZOut :=
  match findExpired st.running_placeholder_jobs eJobId with
  | none => Except.error WmsError.noPlaceholderForExpiredPilot
  | some ph =>
    let running1 := st.running_placeholder_jobs.filter (fun p => p.jobId ≠ ph.jobId)
    let unprocessed := ¬ ph.taskIds.all
      (fun tid => env.wf.stateOf tid = TaskState.completed)
    let stats1 := { st.stats with
                    wasted_node_seconds := st.stats.wasted_node_seconds + zhangWasted env ph }
    if ¬ unprocessed then
      Except.ok ⟨{ st with running_placeholder_jobs := running1, stats := stats1 }, [], [], []⟩
    else
      let stats2 := { stats1 with
                      num_pilot_job_expirations_with_remaining_tasks_to_do :=
                        stats1.num_pilot_job_expirations_with_remaining_tasks_to_do + 1 }
      let (pending2, cancels1) :=
        match st.pending_placeholder_job with
        | some p => (none, [p.jobId])
        | none => (none, ([] : List Nat))
      let notStarted := running1.filter (fun p =>
        p.taskIds.all (fun tid => env.wf.stateOf tid = TaskState.notReady))
      let running2 := running1.filter (fun p =>
        ¬ p.taskIds.all (fun tid => env.wf.stateOf tid = TaskState.notReady))
      let st2 := { st with running_placeholder_jobs := running2,
                           pending_placeholder_job := pending2, stats := stats2 }
      match applyGroupingHeuristic env st2 with
      | Except.error e => Except.error e
      | Except.ok out =>
        Except.ok ⟨out.state, out.requests, out.dispatches,
          cancels1 ++ notStarted.map (fun p => p.jobId) ++ out.cancels⟩

/-- The owning-placeholder lookup of `processEventStandardJobCompletion`
(lines 365-373): the inner `break` only leaves the task loop, so a later
running placeholder job containing the task overwrites an earlier match —
the last match wins. -/
def findOwning : List ZPlaceHolder → Nat → Option ZPlaceHolder
  | [], _ => none
  | ph :: rest, tid =>
    if tid ∈ ph.taskIds then
      match findOwning rest tid with
      | some r => some r
      | none => some ph
    else findOwning rest tid

/-- `ZhangClusteringWMS::processEventStandardJobCompletion` (lines 356-438):
account used node-seconds, locate the running placeholder job owning the task
(fatal if absent outside individual mode), terminate and drop that job when all
its tasks are completed, dispatch newly-ready children inside any running
placeholder job, and in individual mode submit every ready task on its own. -/
def processEventStandardJobCompletion (env : ZEnv) (st : ZState) (ctid : Nat) :
    Except WmsError ZOut :=
  let stats1 := { st.stats with
                  used_node_seconds := st.stats.used_node_seconds + env.wf.flopsOf ctid / env.core_speed }
  let pho := findOwning st.running_placeholder_jobs ctid
  if pho = none ∧ ¬ st.individual_mode then
    Except.error WmsError.noPlaceholderForCompletedTask
  else
    let (running1, cancels) : List ZPlaceHolder × List Nat :=
      match pho with
      | some ph =>
        if ph.taskIds.all (fun tid => env.wf.stateOf tid = TaskState.completed) then
          (st.running_placeholder_jobs.filter (fun p => p.jobId ≠ ph.jobId), [ph.jobId])
        else (st.running_placeholder_jobs, ([] : List Nat))
      | none => (st.running_placeholder_jobs, ([] : List Nat))
    let children := env.children ctid
    let dispatches := running1.flatMap (fun ph =>
      ph.taskIds.filter (fun tid =>
        tid ∈ children ∧ env.wf.stateOf tid = TaskState.ready))
    let requests := if st.individual_mode then readyIndividualRequests env else []
    Except.ok ⟨{ st with stats := stats1, running_placeholder_jobs := running1 },
      requests, dispatches, cancels⟩

/-- `ZhangClusteringWMS::processEventStandardJobFailure` (lines 440-443):
acknowledged and ignored. -/
def processEventStandardJobFailure (_env : ZEnv) (st : ZState) (_tid : Nat) :
    Except WmsError ZOut :=
  pure { state := st, requests := [], dispatches := [], cancels := [] }

end ZhangWMS

namespace LevelByLevelWMS

/-- `PlaceHolderJob` of the level-by-level scheduler: pilot job (by id, with its
host count and requested duration as `createPilotJob` recorded them), the
clustered job's tasks, the per-job completion counter, and the level range. -/
structure LPlaceHolder where
  jobId : Nat
  numHosts : Nat
  duration : ℚ
  taskIds : List Nat
  num_completed_tasks : Nat
  startLevel : Nat
  endLevel : Nat
deriving DecidableEq, Repr

/-- `OngoingLevel`: the per-level bucket of pending/running/completed
placeholder jobs. -/
structure LBucket where
  level_number : Nat
  pending_placeholder_jobs : List LPlaceHolder
  running_placeholder_jobs : List LPlaceHolder
  completed_placeholder_jobs : List LPlaceHolder
deriving DecidableEq, Repr

/-- Mutable state of `LevelByLevelWMS`: `ongoing_levels` is a
`std::map<unsigned long, OngoingLevel*>`, modelled as an association list in
key order; `nextJobId` models `createPilotJob` handing out fresh identities. -/
structure LState where
  ongoing_levels : List (Nat × LBucket)
  nextJobId : Nat
deriving DecidableEq, Repr

/-- A clustered job as produced by the clustering step: task ids plus the
assigned node count. -/
structure ClusteredJobM where
  taskIds : List Nat
  numNodes : Nat
deriving DecidableEq, Repr

/-- External collaborators of the level-by-level WMS.  `cjMakespan` stands for
`ClusteredJob::estimateMakespan(core_speed)` (repository code whose
implementation is not under `src/`), abstracted as a function of the job's
task-id list. -/
structure LEnv where
  wf : Workflow
  number_of_hosts : Nat
  core_speed : ℚ
  overlap : Bool
  clustering_spec : List Char
  cjMakespan : List Nat → ℚ
  children : Nat → List Nat

/-- Plain split of a character string at `'-'` (every delimiter produces a
token boundary, so `"a--b"` gives `["a", "", "b"]`). -/
def splitDashAll : List Char → List (List Char)
  | [] => [[]]
  | c :: rest =>
    if c = '-' then [] :: splitDashAll rest
    else
      match splitDashAll rest with
      | t :: ts => (c :: t) :: ts
      | [] => [[c]]

/-- The tokenization loop of `createPlaceHolderJobsForLevel` (lines 167-173):
`std::getline(ss, token, '-')`.  `getline` yields no token for an empty input
and no trailing empty token when the input ends with the delimiter. -/
def getlineTokens (s : List Char) : List (List Char) :=
  if s = [] then []
  else if s.getLast? = some '-' then (splitDashAll s).dropLast
  else splitDashAll s

/-- `sscanf(token, "%lu", &x)` on a token: succeeds iff the token starts with at
least one decimal digit, and reads the maximal leading run of digits. -/
def parseULong (cs : List Char) : Option Nat :=
  let ds := cs.takeWhile (fun c => '0' ≤ c ∧ c ≤ '9')
  if ds = [] then none
  else some (ds.foldl (fun a c => 10 * a + (c.toNat - '0'.toNat)) 0)

/-- Chunking helper for `createHCJobs`, fueled by the list length. -/
def chunkAux (n : Nat) : Nat → List WTask → List (List WTask)
  | 0, _ => []
  | _, [] => []
  | fuel + 1, l => l.take n :: chunkAux n fuel (l.drop n)

/-- Split a task list into consecutive chunks of at most `n` tasks. -/
def chunkList (n : Nat) (l : List WTask) : List (List WTask) :=
  chunkAux n l.length l

/-- Modelled from the spec: `StaticClusteringWMS::createHCJobs` is declared in
`src/src/StaticClusteringAlgorithms/StaticClusteringWMS.h` but its
implementation is not under `src/`.  Per the spec (section 4.1), the
fixed-chunk (`"hc"`) policy partitions the given task set into
`⌈n / tasks_per_cluster⌉` groups of at most `tasks_per_cluster` tasks each,
and every group is assigned `nodes_per_cluster` nodes. -/
def createHCJobs (num_tasks_per_cluster num_nodes_per_cluster : Nat)
    (tasks : List WTask) : List ClusteredJobM :=
  (chunkList num_tasks_per_cluster tasks).map (fun chunk =>
    ⟨chunk.map (fun t => t.tid), num_nodes_per_cluster⟩)

/-- `LevelByLevelWMS::createPlaceHolderJobsForLevel` (lines 153-211): collect
the level's not-`COMPLETED` tasks, tokenize the clustering spec at `'-'`, and
for an `"hc"` spec with exactly three tokens and numeric parameters `≥ 1`
build the clustered jobs; any other shape throws.  (The guard
`num_nodes_per_cluster < 1` at line 184 rejects a `0` node count even though
the comment at line 187 says `0` nodes would trigger queue prediction.) -/
def createPlaceHolderJobsForLevel (env : LEnv) (level : Nat) :
    Except WmsError (List ClusteredJobM) :=
  let tasks := (env.wf.tasksInLevel level).filter
    (fun t => t.tstate ≠ TaskState.completed)
  let tokens := getlineTokens env.clustering_spec
  match tokens with
  | [] => Except.error WmsError.emptyTokensOutOfBounds
  | t0 :: _ =>
    if t0 = ['h', 'c'] then
      if tokens.length ≠ 3 then Except.error WmsError.invalidClusteringSpec
      else
        match parseULong (tokens.getD 1 []), parseULong (tokens.getD 2 []) with
        | some num_tasks_per_cluster, some num_nodes_per_cluster =>
          if num_tasks_per_cluster < 1 ∨ num_nodes_per_cluster < 1 then
            Except.error WmsError.invalidHCSpec
          else
            Except.ok (createHCJobs num_tasks_per_cluster num_nodes_per_cluster tasks)
        | _, _ => Except.error WmsError.invalidHCSpec
    else Except.error WmsError.invalidClusteringSpec

/-- The level computation of `submitPilotJobsForNextLevel` (lines 80-87): the
maximum `level_number` among the ongoing levels (`ULONG_MAX` when none, so
that the increment wraps to level 0). -/
def maxOngoingLevel (ongoing : List (Nat × LBucket)) : Option Nat :=
  ongoing.foldl (fun acc kv =>
    match acc with
    | none => some kv.2.level_number
    | some m => if m < kv.2.level_number then some kv.2.level_number else some m) none

/-- `level_to_submit` after the increment at line 87. -/
def candidateLevel (ongoing : List (Nat × LBucket)) : Nat :=
  match maxOngoingLevel ongoing with
  | none => 0
  | some m => m + 1

/-- The acceptance branch of `submitPilotJobsForNextLevel` (lines 110-148):
run the clustering step over the candidate level, wrap each clustered job in a
pending placeholder job with a fresh pilot job of `numNodes` hosts, 1 core per
host and fudge-factored duration, emit one reservation request per job, and
register the new ongoing level (appended, keeping the map in key order since
the candidate exceeds every existing level number). -/
def acceptLevel (env : LEnv) (st : LState) (level_to_submit : Nat) :
    Except WmsError (LState × List BatchRequest) := do
  let cjs ← createPlaceHolderJobsForLevel env level_to_submit
  let phs := (cjs.enum).map (fun cji =>
    let makespan := env.cjMakespan cji.2.taskIds
    ({ jobId := st.nextJobId + cji.1, numHosts := cji.2.numNodes,
       duration := makespan * fudgeFactor, taskIds := cji.2.taskIds,
       num_completed_tasks := 0, startLevel := level_to_submit,
       endLevel := level_to_submit } : LPlaceHolder))
  let requests := phs.map (fun ph =>
    ({ nodes := ph.numHosts, cores := 1, minutes := wallTimeMinutes ph.duration,
       taskIds := ph.taskIds, isPilot := true } : BatchRequest))
  let bucket : LBucket :=
    { level_number := level_to_submit, pending_placeholder_jobs := phs,
      running_placeholder_jobs := [], completed_placeholder_jobs := [] }
  pure ({ ongoing_levels := st.ongoing_levels ++ [(level_to_submit, bucket)],
          nextJobId := st.nextJobId + cjs.length }, requests)

/-- `LevelByLevelWMS::submitPilotJobsForNextLevel` (lines 64-149): refuse when
2 or more levels are ongoing, when `overlap` is off and anything is ongoing,
when every level has been submitted, or when the immediately preceding level
still has pending placeholder jobs; otherwise accept the candidate level.
The C++ lookup `ongoing_levels[level_to_submit - 1]` would default-construct
and dereference a null bucket if the key were absent (modelled as an error). -/
def submitPilotJobsForNextLevel (env : LEnv) (st : LState) :
    Except WmsError (LState × List BatchRequest) :=
  if st.ongoing_levels.length ≥ 2 then Except.ok (st, [])
  else if (¬ env.overlap) ∧ st.ongoing_levels ≠ [] then Except.ok (st, [])
  else
    let level_to_submit := candidateLevel st.ongoing_levels
    if level_to_submit ≥ env.wf.numLevels then Except.ok (st, [])
    else if level_to_submit > 0 then
      match st.ongoing_levels.find? (fun kv => kv.1 = level_to_submit - 1) with
      | none => Except.error WmsError.nullBucketDeref
      | some kv =>
        if kv.2.pending_placeholder_jobs ≠ [] then Except.ok (st, [])
        else acceptLevel env st level_to_submit
    else acceptLevel env st level_to_submit

/-- The expired placeholder-job lookup of `processEventPilotJobExpiration`
(lines 294-302): the `break` only leaves the inner loop, so a later ongoing
level's match overwrites an earlier one (last bucket wins), while inside one
bucket the first running match is taken. -/
def findExpired : List (Nat × LBucket) → Nat → Option (Nat × LBucket × LPlaceHolder)
  | [], _ => none
  | (k, b) :: rest, eJobId =>
    match b.running_placeholder_jobs.find? (fun ph => ph.jobId = eJobId) with
    | some ph =>
      match findExpired rest eJobId with
      | some r => some r
      | none => some (k, b, ph)
    | none => findExpired rest eJobId

/-- The replacement placeholder job built by the expiration handler (lines
323-338): a brand-new `ClusteredJob` holding exactly the prior group's
not-`COMPLETED` tasks, `min(previous node count, remaining task count)` nodes,
and a fresh pilot job with fudge-factored duration. -/
def replacementJob (env : LEnv) (nextId : Nat) (b : LBucket) (ph : LPlaceHolder) :
    LPlaceHolder :=
  let remaining := ph.taskIds.filter (fun tid => env.wf.stateOf tid ≠ TaskState.completed)
  { jobId := nextId, numHosts := min ph.numHosts remaining.length,
    duration := env.cjMakespan remaining * fudgeFactor, taskIds := remaining,
    num_completed_tasks := 0, startLevel := b.level_number, endLevel := b.level_number }

/-- The expired job's ongoing level after resubmission: the expired job is
erased from the running set and the replacement job is registered pending. -/
def resubmitBucket (env : LEnv) (nextId : Nat) (b : LBucket) (ph : LPlaceHolder) :
    LBucket :=
  { b with
    running_placeholder_jobs :=
      b.running_placeholder_jobs.filter (fun p => p.jobId ≠ ph.jobId),
    pending_placeholder_jobs :=
      replacementJob env nextId b ph :: b.pending_placeholder_jobs }

/-- `LevelByLevelWMS::processEventPilotJobExpiration` (lines 287-359): find the
expired placeholder job (fatal if absent); if all its tasks are counted
completed the event is a no-op; otherwise remove it from its level's running
set and resubmit a brand-new placeholder job holding exactly the prior group's
not-`COMPLETED` tasks on `min(previous node count, remaining task count)`
nodes, registered pending in the same ongoing level. -/
def processEventPilotJobExpiration (env : LEnv) (st : LState) (eJobId : Nat) :
    Except WmsError (LState × List BatchRequest) :=
  match findExpired st.ongoing_levels eJobId with
  | none => Except.error WmsError.noPlaceholderForExpiredPilot
  | some (lvl, b, ph) =>
    if ph.taskIds.length = ph.num_completed_tasks then Except.ok (st, [])
    else
      let replacement := replacementJob env st.nextJobId b ph
      let b' := resubmitBucket env st.nextJobId b ph
      let st' : LState :=
        { ongoing_levels := st.ongoing_levels.map
            (fun kv => if kv.1 = lvl then (lvl, b') else kv),
          nextJobId := st.nextJobId + 1 }
      let request : BatchRequest :=
        { nodes := replacement.numHosts, cores := 1,
          minutes := wallTimeMinutes replacement.duration,
          taskIds := replacement.taskIds, isPilot := true }
      Except.ok (st', [request])

end LevelByLevelWMS


/-! ## Concrete instances

Small concrete environments and states, used by the counterexamples and the
witnesses below.  External estimator functions are chosen freely (they model
the external batch service and workflow-utility collaborators). -/

/-- All-zero simulator counters. -/
def czeroStats : ZhangWMS.ZStats :=
  { total_queue_wait_time := 0, used_node_seconds := 0, wasted_node_seconds := 0,
    num_pilot_job_expirations_with_remaining_tasks_to_do := 0 }

/-- Three-level workflow (one task per level) with an estimator under which the
level-peeling search grows once and then stops on the efficiency-ratio test:
range `[0,0]` costs runtime 10 / wait 100, range `[0,1]` costs runtime 100 /
wait 50, the whole remainder costs runtime 200 / wait 50. -/
def cenvC1 : ZhangWMS.ZEnv :=
  { wf := { tasks := [⟨0, 1, 0, TaskState.ready⟩, ⟨1, 1, 1, TaskState.notReady⟩,
      ⟨2, 1, 2, TaskState.notReady⟩], numLevels := 3 },
    number_of_hosts := 4, core_speed := 1,
    makespan := fun _ c _ => if c = 0 then 10 else if c = 1 then 100 else 200,
    startTimeEstimate := fun seq _ _ => if seq = 0 then 100 else 50,
    currentDate := 0, queueWaitOf := fun _ => 0, children := fun _ => [],
    overlap := true, plimit := false, garbageLeeway := 0 }

/-- The `groupLevels` loop state of `cenvC1` after its first iteration
(candidate `[0,0]` grown: `peel_wait_time[1] = 100`, `peel_runtime[1] = 10`,
`[0]` slots still the whole-remainder values, `giant` still set). -/
def cstIterC1 : ZhangWMS.GLSt :=
  { pw0 := 50, pr0 := 200, rr0 := 200, giant := true, leeway := 0,
    lastW := 100, lastR := 10, seq := 1 }

/-- Two-level workflow, no task completed. -/
def cenvC2 : ZhangWMS.ZEnv :=
  { wf := { tasks := [⟨0, 1, 0, TaskState.ready⟩, ⟨1, 1, 1, TaskState.notReady⟩],
            numLevels := 2 },
    number_of_hosts := 4, core_speed := 1, makespan := fun _ _ _ => 0,
    startTimeEstimate := fun _ _ _ => 0, currentDate := 0,
    queueWaitOf := fun _ => 0, children := fun _ => [], overlap := true,
    plimit := false, garbageLeeway := 0 }

/-- Two running placeholder jobs covering levels 1 and 0, in that iteration
order (the running set is ordered by pointer value, so any order can occur). -/
def crunC2 : List ZhangWMS.ZPlaceHolder :=
  [{ jobId := 1, taskIds := [1], startLevel := 1, endLevel := 1, reqNodes := 1, reqMinutes := 1 },
   { jobId := 0, taskIds := [0], startLevel := 0, endLevel := 0, reqNodes := 1, reqMinutes := 1 }]

/-- Two-level workflow whose level 0 is fully completed and level 1 is not. -/
def cenvC2w : ZhangWMS.ZEnv :=
  { cenvC2 with wf := { tasks := [⟨0, 1, 0, TaskState.completed⟩,
      ⟨1, 1, 1, TaskState.ready⟩], numLevels := 2 } }

/-- A single running placeholder job ending at level 1. -/
def cphC2w : ZhangWMS.ZPlaceHolder :=
  { jobId := 5, taskIds := [1], startLevel := 1, endLevel := 1, reqNodes := 1, reqMinutes := 1 }

/-- One-level workflow whose only task is completed. -/
def cenvC3 : ZhangWMS.ZEnv :=
  { cenvC2 with wf := { tasks := [⟨0, 1, 0, TaskState.completed⟩], numLevels := 1 } }

/-- A scheduler state already in individual mode. -/
def cstC3 : ZhangWMS.ZState :=
  { individual_mode := true, pending_placeholder_job := none,
    running_placeholder_jobs := [], parent_runtime := 0, sequence := 0,
    nextJobId := 0, stats := czeroStats }

/-- A running placeholder job whose single task is completed (requested with
`-N 2 -t 4`). -/
def cphC4 : ZhangWMS.ZPlaceHolder :=
  { jobId := 3, taskIds := [0], startLevel := 0, endLevel := 0, reqNodes := 2, reqMinutes := 4 }

/-- Zhang scheduler state with exactly the completed job `cphC4` running. -/
def cstC4 : ZhangWMS.ZState :=
  { individual_mode := false, pending_placeholder_job := none,
    running_placeholder_jobs := [cphC4], parent_runtime := 0, sequence := 0,
    nextJobId := 5, stats := czeroStats }

/-- One-level two-task workflow, both tasks completed (level-by-level side). -/
def cenvL4 : LevelByLevelWMS.LEnv :=
  { wf := { tasks := [⟨0, 1, 0, TaskState.completed⟩, ⟨1, 1, 0, TaskState.completed⟩],
            numLevels := 1 },
    number_of_hosts := 4, core_speed := 1, overlap := true,
    clustering_spec := ['h', 'c', '-', '1', '-', '1'],
    cjMakespan := fun _ => 0, children := fun _ => [] }

/-- A running level-by-level placeholder job with both tasks counted completed. -/
def cphL4 : LevelByLevelWMS.LPlaceHolder :=
  { jobId := 7, numHosts := 2, duration := 10, taskIds := [0, 1],
    num_completed_tasks := 2, startLevel := 0, endLevel := 0 }

/-- The ongoing level 0 holding `cphL4` as running. -/
def cbL4 : LevelByLevelWMS.LBucket :=
  { level_number := 0, pending_placeholder_jobs := [],
    running_placeholder_jobs := [cphL4], completed_placeholder_jobs := [] }

/-- Level-by-level state with the single ongoing level `cbL4`. -/
def cstL4 : LevelByLevelWMS.LState := { ongoing_levels := [(0, cbL4)], nextJobId := 8 }

/-- One-level five-task workflow: tasks 0 and 1 completed, tasks 2, 3, 4 ready
(the spec's resubmission scenario). -/
def cenvL5 : LevelByLevelWMS.LEnv :=
  { wf := { tasks := [⟨0, 1, 0, TaskState.completed⟩, ⟨1, 1, 0, TaskState.completed⟩,
      ⟨2, 1, 0, TaskState.ready⟩, ⟨3, 1, 0, TaskState.ready⟩,
      ⟨4, 1, 0, TaskState.ready⟩], numLevels := 1 },
    number_of_hosts := 4, core_speed := 1, overlap := true,
    clustering_spec := ['h', 'c', '-', '1', '-', '1'],
    cjMakespan := fun _ => 30, children := fun _ => [] }

/-- A running placeholder job with the 5 tasks, 2 counted completed, 4 nodes. -/
def cphL5 : LevelByLevelWMS.LPlaceHolder :=
  { jobId := 9, numHosts := 4, duration := 10, taskIds := [0, 1, 2, 3, 4],
    num_completed_tasks := 2, startLevel := 0, endLevel := 0 }

/-- The ongoing level 0 holding `cphL5` as running. -/
def cbL5 : LevelByLevelWMS.LBucket :=
  { level_number := 0, pending_placeholder_jobs := [],
    running_placeholder_jobs := [cphL5], completed_placeholder_jobs := [] }

/-- Level-by-level state with the single ongoing level `cbL5`. -/
def cstL5 : LevelByLevelWMS.LState := { ongoing_levels := [(0, cbL5)], nextJobId := 11 }

/-- One-level workflow with one ready task (for a placeholder-job submission). -/
def cenvC6 : ZhangWMS.ZEnv :=
  { cenvC2 with wf := { tasks := [⟨0, 1, 0, TaskState.ready⟩], numLevels := 1 } }

/-- An idle Zhang scheduler state. -/
def cstC6 : ZhangWMS.ZState :=
  { individual_mode := false, pending_placeholder_job := none,
    running_placeholder_jobs := [], parent_runtime := 0, sequence := 0,
    nextJobId := 0, stats := czeroStats }

/-- Level-by-level environment with the clustering spec `"hc-2-0"`:
well-shaped (`hc`, three dash-separated tokens, numeric parameters) and with a
nodes-per-cluster of 0. -/
def cenvC7 : LevelByLevelWMS.LEnv :=
  { wf := { tasks := [], numLevels := 1 },
    number_of_hosts := 4, core_speed := 1, overlap := true,
    clustering_spec := ['h', 'c', '-', '2', '-', '0'],
    cjMakespan := fun _ => 0, children := fun _ => [] }

/-- A pending placeholder job for level 0 (not yet started). -/
def cphC8 : LevelByLevelWMS.LPlaceHolder :=
  { jobId := 1, numHosts := 1, duration := 1, taskIds := [0],
    num_completed_tasks := 0, startLevel := 0, endLevel := 0 }

/-- Ongoing level 0 with the pending (not-yet-started) job `cphC8`. -/
def cbC8 : LevelByLevelWMS.LBucket :=
  { level_number := 0, pending_placeholder_jobs := [cphC8],
    running_placeholder_jobs := [], completed_placeholder_jobs := [] }

/-- Three-level environment for the level-order guard. -/
def cenvC8 : LevelByLevelWMS.LEnv :=
  { wf := { tasks := [⟨0, 1, 0, TaskState.ready⟩, ⟨1, 1, 1, TaskState.notReady⟩,
      ⟨2, 1, 2, TaskState.notReady⟩], numLevels := 3 },
    number_of_hosts := 4, core_speed := 1, overlap := true,
    clustering_spec := ['h', 'c', '-', '1', '-', '1'],
    cjMakespan := fun _ => 0, children := fun _ => [] }

/-- Level-by-level state whose only ongoing level still has a pending job. -/
def cstC8 : LevelByLevelWMS.LState := { ongoing_levels := [(0, cbC8)], nextJobId := 2 }

/-- The pending placeholder job of the reservation-start scenarios. -/
def cphC10 : ZhangWMS.ZPlaceHolder :=
  { jobId := 7, taskIds := [0], startLevel := 0, endLevel := 0, reqNodes := 1, reqMinutes := 1 }

/-- Two-level workflow whose batch estimator always fails (returns `-1`). -/
def cenvC10 : ZhangWMS.ZEnv :=
  { wf := { tasks := [⟨0, 1, 0, TaskState.ready⟩, ⟨1, 1, 1, TaskState.ready⟩],
            numLevels := 2 },
    number_of_hosts := 4, core_speed := 1, makespan := fun _ _ _ => 10,
    startTimeEstimate := fun _ _ _ => -1, currentDate := 0,
    queueWaitOf := fun _ => 0, children := fun _ => [], overlap := true,
    plimit := false, garbageLeeway := 0 }

/-- Zhang scheduler state with `cphC10` pending. -/
def cstC10 : ZhangWMS.ZState :=
  { individual_mode := false, pending_placeholder_job := some cphC10,
    running_placeholder_jobs := [], parent_runtime := 0, sequence := 0,
    nextJobId := 8, stats := czeroStats }

/-! ## Claim C1 — `groupLevels` stopping rule

The level-peeling search stops as claimed, but on the ratio break it returns
the *current* candidate's `(wait_time, makespan, end_level)` — not the previous
candidate's (the range ending one level back), as the claim states. -/

/-- C1 (counterexample).  In `cenvC1` the search grows once (candidate `[0,0]`
has wait 100 > runtime 10), then at candidate `[0,1]` (wait 50, runtime 100)
the efficiency ratio `50/100` exceeds the one-step-back ratio `50/200`, so the
loop breaks.  The claim says the returned triple describes the previous
candidate `[0,0]`, i.e. `(100, 10, 0)`; `groupLevels` actually returns the
current candidate's `(50, 100, 1)`.  The second and third conjuncts pin down
the previous candidate's wait time (100) and makespan (10) in this
environment. -/
theorem zhang_groupLevels_current_candidate_cex :
    ZhangWMS.groupLevels cenvC1 0 0 2 200 50 0 = Except.ok (50, 100, 1, 2) ∧
    ZhangWMS.estimateWaitTime cenvC1 (ZhangWMS.maxParallelism cenvC1 0 0)
      (cenvC1.makespan 0 0 (ZhangWMS.maxParallelism cenvC1 0 0)) 0 = Except.ok (100, 1) ∧
    cenvC1.makespan 0 0 (ZhangWMS.maxParallelism cenvC1 0 0) = 10 ∧
    ((50 : ℚ), (100 : ℚ), (1 : Nat)) ≠ ((100 : ℚ), (10 : ℚ), (0 : Nat)) := by
  refine ⟨?_, ?_, ?_, ?_⟩
  · norm_num [ZhangWMS.groupLevels, ZhangWMS.glLoop, ZhangWMS.glIter, ZhangWMS.glExit,
      ZhangWMS.glLeeway, ZhangWMS.glDecide, ZhangWMS.estimateWaitTime,
      ZhangWMS.maxParallelism, cenvC1, Workflow.tasksInLevel, List.range', List.filter]
  · norm_num [ZhangWMS.estimateWaitTime, ZhangWMS.maxParallelism, cenvC1,
      Workflow.tasksInLevel, List.range', List.filter]
  · norm_num [ZhangWMS.maxParallelism, cenvC1, Workflow.tasksInLevel, List.range',
      List.filter]
  · norm_num [Prod.mk.injEq]

/-- C1 (amended).  When a `groupLevels` loop iteration at candidate end level
`c` takes the `break` branch (net wait no longer exceeds runtime and the
current candidate's wait/runtime ratio exceeds the one-step-back ratio or the
whole-remainder ratio, evaluated only when the wait exceeds the parent-runtime
floor), the loop returns the *current* candidate's wait time, makespan and end
level `c`. -/
theorem zhang_groupLevels_break_returns_current (env : ZhangWMS.ZEnv)
    (parent wAll rAll : ℚ) (s e c : Nat) (st : ZhangWMS.GLSt) (w r : ℚ) (q : Nat)
    (hce : c < e)
    (hbrk : ZhangWMS.glIter env parent wAll rAll s c st =
      Except.ok (ZhangWMS.GLIterOut.brk w r q)) :
    ZhangWMS.glLoop env parent wAll rAll s e (e - c) c st = Except.ok (w, r, c, q) := by
  obtain ⟨k, hk⟩ : ∃ k, e - c = k + 1 := ⟨e - c - 1, by omega⟩
  rw [hk]
  unfold ZhangWMS.glLoop
  rw [if_pos hce, hbrk]

/-- C1 (witness): the amended theorem applied at `cenvC1`, candidate 1 of the
range `[0, 2]`, where the ratio break fires. -/
theorem zhang_groupLevels_break_returns_current_witness :
    1 < 2 ∧ ZhangWMS.glLoop cenvC1 0 50 200 0 2 1 1 cstIterC1 = Except.ok (50, 100, 1, 2) := by
  refine ⟨by norm_num, ?_⟩
  exact zhang_groupLevels_break_returns_current cenvC1 0 50 200 0 2 1 cstIterC1 50 100 2
    (by norm_num)
    (by norm_num [ZhangWMS.glIter, ZhangWMS.glLeeway, ZhangWMS.glDecide,
      ZhangWMS.estimateWaitTime, ZhangWMS.maxParallelism, cenvC1, cstIterC1,
      Workflow.tasksInLevel, List.range', List.filter])

/-! ## Claim C2 — `getStartLevel` -/

/-- The first loop of `getStartLevel` computes one plus the index of the last
fully-completed level; when the fully-completed levels (below `n`) are exactly
`{0, …, k-1}`, that is `k`. -/
theorem foldl_lastCompleted (C : Nat → Bool) :
    ∀ n k : Nat, k ≤ n → (∀ i, i < n → (C i = true ↔ i < k)) →
      (List.range n).foldl (fun acc i => if C i then i + 1 else acc) 0 = k := by
  intro n
  induction n with
  | zero =>
    intro k hk _
    have : k = 0 := by omega
    simp [this]
  | succ n ih =>
    intro k hk h
    rw [List.range_succ, List.foldl_append, List.foldl_cons, List.foldl_nil]
    by_cases hcn : C n = true
    · have hnk : n < k := (h n (Nat.lt_succ_self n)).mp hcn
      have hk' : k = n + 1 := by omega
      rw [if_pos hcn, hk']
    · have hnk : ¬ n < k := fun hlt => hcn ((h n (Nat.lt_succ_self n)).mpr hlt)
      have hk2 : k ≤ n := by omega
      rw [if_neg hcn, ih k hk2 (fun i hi => h i (Nat.lt_succ_of_lt hi))]

/-- C2 (counterexample).  Two running placeholder jobs ending at levels 1 and 0
(in that set-iteration order), no level fully completed: the completed-or-
covered levels are the prefix `{0, 1}`, so the claim's "least level neither
fully completed nor at-or-below the end level of a running job" is 2 — but
`getStartLevel` applies `1 + max(acc, end_level)` once per running job and
returns 3. -/
theorem zhang_getStartLevel_two_running_cex :
    ZhangWMS.getStartLevel cenvC2 crunC2 = 3 ∧
    crunC2.map (fun ph => ph.endLevel) = [1, 0] ∧
    ZhangWMS.startLevelBase cenvC2 = 0 ∧
    (3 : Nat) ≠ 2 := by
  refine ⟨rfl, rfl, rfl, by omega⟩

/-- C2 (amended).  `getStartLevel` starts from one plus the index of the last
fully-completed level (`k` when the fully-completed levels are exactly the
prefix `{0, …, k-1}`) and then applies `acc ↦ 1 + max(acc, end_level)` once
per running placeholder job, in iteration order.  With no running job the
result is `k` (the first not-fully-completed level); with a single running job
whose end level is at least `k` it is `end_level + 1` (the first level past
that job).  (With two or more running jobs, or a running job ending below
`k`, the result can exceed the claim's "least uncovered" level, as the
counterexample shows.) -/
theorem zhang_getStartLevel_amended (env : ZhangWMS.ZEnv) (k : Nat)
    (hk : k ≤ env.wf.numLevels)
    (hpre : ∀ i, i < env.wf.numLevels →
      (ZhangWMS.levelAllCompleted env i = true ↔ i < k)) :
    ZhangWMS.getStartLevel env [] = k ∧
    ∀ ph : ZhangWMS.ZPlaceHolder, k ≤ ph.endLevel →
      ZhangWMS.getStartLevel env [ph] = ph.endLevel + 1 := by
  have hbase : ZhangWMS.startLevelBase env = k :=
    foldl_lastCompleted (ZhangWMS.levelAllCompleted env) env.wf.numLevels k hk hpre
  constructor
  · simpa [ZhangWMS.getStartLevel, ZhangWMS.startLevelBase] using hbase
  · intro ph hph
    have : ZhangWMS.getStartLevel env [ph] = 1 + max (ZhangWMS.startLevelBase env) ph.endLevel := by
      simp [ZhangWMS.getStartLevel, ZhangWMS.startLevelBase]
    rw [this, hbase]
    omega

/-- C2 (witness): the amended theorem applied to a workflow whose level 0 is
fully completed (`k = 1`), with no running job and with the single running job
`cphC2w` ending at level 1. -/
theorem zhang_getStartLevel_amended_witness :
    ZhangWMS.getStartLevel cenvC2w [] = 1 ∧
    ZhangWMS.getStartLevel cenvC2w [cphC2w] = 2 := by
  have h := zhang_getStartLevel_amended cenvC2w 1 (by norm_num [cenvC2w, cenvC2])
    (by decide)
  exact ⟨h.1, h.2 cphC2w (by decide)⟩


/-! ## Claim C3 — individual-mode permanence -/

/-- In individual mode `applyGroupingHeuristic` returns immediately (lines
74-77): the state is unchanged and nothing is submitted. -/
theorem agh_individual (env : ZhangWMS.ZEnv) (st : ZhangWMS.ZState)
    (hmode : st.individual_mode = true) :
    ZhangWMS.applyGroupingHeuristic env st = Except.ok ⟨st, [], [], []⟩ := by
  unfold ZhangWMS.applyGroupingHeuristic
  cases hp : st.pending_placeholder_job <;>
    simp [hp, hmode, pure, Except.pure]

/-- Every request built by the individual-submission block is a one-task
standard job on one node. -/
theorem readyIndividualRequests_singleton (env : ZhangWMS.ZEnv) :
    ∀ r ∈ ZhangWMS.readyIndividualRequests env,
      r.isPilot = false ∧ r.nodes = 1 ∧ ∃ t, r.taskIds = [t] := by
  intro r hr
  simp only [ZhangWMS.readyIndividualRequests, List.mem_map] at hr
  obtain ⟨t, -, rfl⟩ := hr
  exact ⟨rfl, rfl, t.tid, rfl⟩

/-- C3.  Once `individual_mode` is set it survives every event handler (no
handler ever clears it), and under it every handler submits only singleton
one-task one-node requests: the decision pass changes nothing, reservation
start and expiration submit no batch requests at all (their nested decision
pass returns empty-handed), and task completion submits exactly the ready
tasks as individual `-N 1 -c 1` standard jobs. -/
theorem zhang_individual_mode_permanent (env : ZhangWMS.ZEnv) (st : ZhangWMS.ZState)
    (hmode : st.individual_mode = true) :
    ZhangWMS.applyGroupingHeuristic env st = Except.ok ⟨st, [], [], []⟩ ∧
    (∀ tid out, ZhangWMS.processEventStandardJobCompletion env st tid = Except.ok out →
      out.state.individual_mode = true ∧
      ∀ r ∈ out.requests, r.isPilot = false ∧ r.nodes = 1 ∧ ∃ t, r.taskIds = [t]) ∧
    (∀ jid out, ZhangWMS.processEventPilotJobStart env st jid = Except.ok out →
      out.state.individual_mode = true ∧ out.requests = []) ∧
    (∀ jid out, ZhangWMS.processEventPilotJobExpiration env st jid = Except.ok out →
      out.state.individual_mode = true ∧ out.requests = []) ∧
    (∀ tid out, ZhangWMS.processEventStandardJobFailure env st tid = Except.ok out →
      out.state.individual_mode = true ∧ out.requests = []) := by
  refine ⟨agh_individual env st hmode, ?_, ?_, ?_, ?_⟩
  · -- task completion
    intro tid out hout
    cases hpho : ZhangWMS.findOwning st.running_placeholder_jobs tid with
    | none =>
      simp only [ZhangWMS.processEventStandardJobCompletion, hpho, hmode,
        not_true, and_false, if_false, Except.ok.injEq, reduceCtorEq] at hout
      subst hout
      refine ⟨rfl, ?_⟩
      intro r hr
      exact readyIndividualRequests_singleton env r (by simpa using hr)
    | some ph =>
      by_cases hall : (ph.taskIds.all
          (fun tid => env.wf.stateOf tid = TaskState.completed)) = true <;>
      · simp only [ZhangWMS.processEventStandardJobCompletion, hpho, hmode, hall,
          not_true, and_false, if_false, if_true, Except.ok.injEq, reduceCtorEq] at hout
        subst hout
        refine ⟨rfl, ?_⟩
        intro r hr
        exact readyIndividualRequests_singleton env r (by simpa using hr)
  · -- reservation start
    intro jid out hout
    cases hpend : st.pending_placeholder_job with
    | none =>
      simp only [ZhangWMS.processEventPilotJobStart, hpend, reduceCtorEq] at hout
    | some ph =>
      simp only [ZhangWMS.processEventPilotJobStart, hpend] at hout
      by_cases hne : jid ≠ ph.jobId
      · rw [if_pos hne] at hout
        simp only [Except.ok.injEq] at hout
        subst hout
        exact ⟨hmode, rfl⟩
      · rw [if_neg hne] at hout
        rw [agh_individual env _ (by simpa using hmode)] at hout
        simp only [Except.ok.injEq] at hout
        subst hout
        exact ⟨by simpa using hmode, rfl⟩
  · -- reservation expiration
    intro jid out hout
    cases hfind : ZhangWMS.findExpired st.running_placeholder_jobs jid with
    | none =>
      simp only [ZhangWMS.processEventPilotJobExpiration, hfind, reduceCtorEq] at hout
    | some ph =>
      cases hallb : ph.taskIds.all (fun tid => env.wf.stateOf tid = TaskState.completed) with
      | true =>
        simp only [ZhangWMS.processEventPilotJobExpiration, hfind, hallb] at hout
        rw [if_pos (by simp)] at hout
        simp only [Except.ok.injEq] at hout
        subst hout
        exact ⟨by simpa using hmode, rfl⟩
      | false =>
        simp only [ZhangWMS.processEventPilotJobExpiration, hfind, hallb] at hout
        rw [if_neg (by simp)] at hout
        cases hpend : st.pending_placeholder_job <;>
        · rw [hpend] at hout
          simp only [] at hout
          rw [agh_individual env _ (by simpa using hmode)] at hout
          simp only [Except.ok.injEq] at hout
          subst hout
          exact ⟨by simpa using hmode, rfl⟩
  · -- task failure
    intro tid out hout
    simp only [ZhangWMS.processEventStandardJobFailure, pure, Except.pure,
      Except.ok.injEq] at hout
    subst hout
    exact ⟨hmode, rfl⟩

/-- C3 (witness): the permanence theorem applied to the individual-mode state
`cstC3`; the decision pass leaves the state unchanged and submits nothing. -/
theorem zhang_individual_mode_permanent_witness :
    ZhangWMS.applyGroupingHeuristic cenvC3 cstC3 = Except.ok ⟨cstC3, [], [], []⟩ :=
  (zhang_individual_mode_permanent cenvC3 cstC3 rfl).1

/-! ## Claim C4 — expiration with all tasks completed

The level-by-level handler really is a no-op in that case, but the Zhang
handler removes the placeholder job from the running set (line 278) *before*
the all-completed check (line 305), so its bookkeeping state does change. -/

/-- C4 (counterexample).  A Zhang running placeholder job whose single task is
`Completed`: after the expiration event the running set is empty, so the
scheduler's bookkeeping is *not* "exactly the same after handling the event as
before it". -/
theorem zhang_expiration_all_completed_cex :
    (ZhangWMS.processEventPilotJobExpiration cenvC3 cstC4 3).map
      (fun o => o.state.running_placeholder_jobs) = Except.ok [] ∧
    cstC4.running_placeholder_jobs = [cphC4] ∧
    cphC4.taskIds.all (fun tid => cenvC3.wf.stateOf tid = TaskState.completed) = true ∧
    ([] : List ZhangWMS.ZPlaceHolder) ≠ [cphC4] := by
  refine ⟨?_, rfl, rfl, by simp⟩
  norm_num [ZhangWMS.processEventPilotJobExpiration, ZhangWMS.findExpired,
    ZhangWMS.zhangWasted, cenvC3, cenvC2, cstC4, cphC4, czeroStats,
    Workflow.stateOf, Workflow.findTask, Workflow.flopsOf, List.find?,
    List.filter, Except.map]

/-- C4 (amended).  On a reservation-expiration event for a placeholder job all
of whose tasks are completed: the level-by-level scheduler's handler is a
strict no-op (state returned unchanged, nothing submitted), while the Zhang
scheduler's handler first erases the job from the running set and accounts the
wasted node-seconds, and only then returns without any further change (no
cancellation, no resubmission; pending job, level data and individual-mode
flag untouched). -/
theorem expiration_all_completed_amended :
    (∀ (env : LevelByLevelWMS.LEnv) (st : LevelByLevelWMS.LState) (eid lvl : Nat)
        (b : LevelByLevelWMS.LBucket) (ph : LevelByLevelWMS.LPlaceHolder),
      LevelByLevelWMS.findExpired st.ongoing_levels eid = some (lvl, b, ph) →
      ph.taskIds.length = ph.num_completed_tasks →
      LevelByLevelWMS.processEventPilotJobExpiration env st eid = Except.ok (st, [])) ∧
    (∀ (env : ZhangWMS.ZEnv) (st : ZhangWMS.ZState) (eid : Nat)
        (ph : ZhangWMS.ZPlaceHolder),
      ZhangWMS.findExpired st.running_placeholder_jobs eid = some ph →
      ph.taskIds.all (fun tid => env.wf.stateOf tid = TaskState.completed) = true →
      ZhangWMS.processEventPilotJobExpiration env st eid = Except.ok
        ⟨{ st with
           running_placeholder_jobs :=
             st.running_placeholder_jobs.filter (fun p => p.jobId ≠ ph.jobId),
           stats := { st.stats with
                      wasted_node_seconds :=
                        st.stats.wasted_node_seconds + ZhangWMS.zhangWasted env ph } },
         [], [], []⟩) := by
  constructor
  · intro env st eid lvl b ph hfind hlen
    simp only [LevelByLevelWMS.processEventPilotJobExpiration, hfind]
    rw [if_pos hlen]
  · intro env st eid ph hfind hall
    simp only [ZhangWMS.processEventPilotJobExpiration, hfind, hall]
    rw [if_pos (by simp)]

/-- C4 (witness): the amended theorem applied to the completed level-by-level
job `cphL4` (strict no-op) and the completed Zhang job `cphC4` (running set
shrinks, waste accounted, nothing else changes). -/
theorem expiration_all_completed_amended_witness :
    LevelByLevelWMS.processEventPilotJobExpiration cenvL4 cstL4 7 = Except.ok (cstL4, []) ∧
    ZhangWMS.processEventPilotJobExpiration cenvC3 cstC4 3 = Except.ok
      ⟨{ cstC4 with
         running_placeholder_jobs :=
           cstC4.running_placeholder_jobs.filter (fun p => p.jobId ≠ cphC4.jobId),
         stats := { cstC4.stats with
                    wasted_node_seconds :=
                      cstC4.stats.wasted_node_seconds +
                        ZhangWMS.zhangWasted cenvC3 cphC4 } },
       [], [], []⟩ :=
  ⟨expiration_all_completed_amended.1 cenvL4 cstL4 7 0 cbL4 cphL4 rfl rfl,
   expiration_all_completed_amended.2 cenvC3 cstC4 3 cphC4 rfl rfl⟩

/-! ## Claim C5 — resubmission conserves work (level-by-level) -/

/-- A successful expired-job lookup returns a bucket that is in the ongoing
map. -/
theorem lbl_findExpired_mem :
    ∀ (l : List (Nat × LevelByLevelWMS.LBucket)) (eid lvl : Nat)
      (b : LevelByLevelWMS.LBucket) (ph : LevelByLevelWMS.LPlaceHolder),
      LevelByLevelWMS.findExpired l eid = some (lvl, b, ph) → (lvl, b) ∈ l := by
  intro l
  induction l with
  | nil => intro eid lvl b ph h; simp [LevelByLevelWMS.findExpired] at h
  | cons kv rest ih =>
    intro eid lvl b ph h
    obtain ⟨k, b0⟩ := kv
    simp only [LevelByLevelWMS.findExpired] at h
    cases hf : b0.running_placeholder_jobs.find? (fun p => p.jobId = eid) with
    | none =>
      rw [hf] at h
      exact List.mem_cons_of_mem _ (ih eid lvl b ph h)
    | some ph0 =>
      rw [hf] at h
      cases hrest : LevelByLevelWMS.findExpired rest eid with
      | none =>
        rw [hrest] at h
        simp only [Option.some.injEq, Prod.mk.injEq] at h
        obtain ⟨h1, h2, -⟩ := h
        subst h1
        subst h2
        exact List.mem_cons_self _ _
      | some r =>
        rw [hrest] at h
        simp only [Option.some.injEq] at h
        subst h
        exact List.mem_cons_of_mem _ (ih eid lvl b ph hrest)

/-- C5.  After an expiration whose placeholder job still has uncounted tasks,
the handler resubmits: it emits exactly one reservation request whose task set
is exactly the prior group's not-`COMPLETED` tasks (stated both as a list
equality and as a membership equivalence: no omission, no addition), whose
node count is `min(previous node count, remaining task count)`, and a
brand-new pending placeholder job (fresh pilot-job id) carrying exactly those
tasks and nodes is registered in the expired job's ongoing level. -/
theorem lbl_resubmission_conserves_work (env : LevelByLevelWMS.LEnv)
    (st : LevelByLevelWMS.LState) (eid lvl : Nat) (b : LevelByLevelWMS.LBucket)
    (ph : LevelByLevelWMS.LPlaceHolder)
    (hfind : LevelByLevelWMS.findExpired st.ongoing_levels eid = some (lvl, b, ph))
    (hunproc : ph.taskIds.length ≠ ph.num_completed_tasks) :
    ∃ st' req,
      LevelByLevelWMS.processEventPilotJobExpiration env st eid = Except.ok (st', [req]) ∧
      req.taskIds = ph.taskIds.filter
        (fun tid => env.wf.stateOf tid ≠ TaskState.completed) ∧
      (∀ tid, tid ∈ req.taskIds ↔
        tid ∈ ph.taskIds ∧ env.wf.stateOf tid ≠ TaskState.completed) ∧
      req.nodes = min ph.numHosts req.taskIds.length ∧
      req.isPilot = true ∧
      ∃ b', (lvl, b') ∈ st'.ongoing_levels ∧
        ∃ ph', ph' ∈ b'.pending_placeholder_jobs ∧ ph'.jobId = st.nextJobId ∧
          ph'.taskIds = req.taskIds ∧ ph'.numHosts = req.nodes ∧
          st'.nextJobId = st.nextJobId + 1 := by
  have hmem := lbl_findExpired_mem st.ongoing_levels eid lvl b ph hfind
  simp only [LevelByLevelWMS.processEventPilotJobExpiration, hfind]
  rw [if_neg hunproc]
  refine ⟨_, _, rfl, rfl, ?_, rfl, rfl,
    LevelByLevelWMS.resubmitBucket env st.nextJobId b ph,
    List.mem_map.mpr ⟨(lvl, b), hmem, by rw [if_pos rfl]⟩,
    LevelByLevelWMS.replacementJob env st.nextJobId b ph,
    List.mem_cons_self _ _, rfl, rfl, rfl, rfl⟩
  intro tid
  simp [LevelByLevelWMS.replacementJob, List.mem_filter]

/-- C5 (witness): the spec's scenario — 5 tasks, 2 completed, previous node
count 4 — yields a replacement request with the 3 remaining tasks on
`min(4, 3) = 3` nodes. -/
theorem lbl_resubmission_conserves_work_witness :
    (LevelByLevelWMS.processEventPilotJobExpiration cenvL5 cstL5 9).map
      (fun p => p.2.map (fun r => (r.taskIds, r.nodes, r.isPilot))) =
      Except.ok [([2, 3, 4], 3, true)] := by
  obtain ⟨st', req, heq, h1, -, h2, h3, -⟩ :=
    lbl_resubmission_conserves_work cenvL5 cstL5 9 0 cbL5 cphL5 rfl (by decide)
  rw [heq]
  have ht : req.taskIds = [2, 3, 4] := by rw [h1]; rfl
  rw [ht] at h2
  simp [Except.map, ht, h2, h3, cphL5]

/-! ## Claim C6 — wall-time minutes

Both schedulers compute `-t` as `1 + ((unsigned long) durationSeconds) / 60`,
i.e. `1 + ⌊durationSeconds⌋ / 60` — a floor, not the claimed
`ceil(1 + durationSeconds / 60)`. -/

/-- C6 (counterexample).  A placeholder-job submission whose fudge-factored
duration is 90 seconds gets `-t 2`, while the claimed formula
`ceil(1 + 90/60)` gives 3. -/
theorem wall_time_ceil_cex :
    (ZhangWMS.createAndSubmitPlaceholderJob cenvC6 cstC6 (900 / 11) 4 0 0).requests.map
      (fun r => r.minutes) = [2] ∧
    (900 / 11 : ℚ) * fudgeFactor = 90 ∧
    (⌈(1 : ℚ) + 90 / 60⌉ = 3) ∧ ((2 : ℤ) ≠ 3) := by
  refine ⟨?_, by norm_num [fudgeFactor], ?_, by norm_num⟩
  swap
  · rw [show (1 : ℚ) + 90 / 60 = 5 / 2 by norm_num, Int.ceil_eq_iff]
    norm_num
  norm_num [ZhangWMS.createAndSubmitPlaceholderJob, wallTimeMinutes, fudgeFactor]

/-- C6 (amended).  The wall-time parameter in minutes equals
`⌊durationSeconds / 60⌋ + 1` (the requested duration truncated to whole
seconds, divided by 60 rounding *down*, plus one) — it agrees with the claimed
`ceil(1 + durationSeconds/60)` only when the duration is an exact multiple of
60 seconds.  The second conjunct grounds the formula at the Zhang
placeholder-job submission site, whose request carries
`wallTimeMinutes(requestedExecutionTime × 1.1)`. -/
theorem wall_time_floor_amended :
    (∀ d : ℚ, wallTimeMinutes d = Nat.floor (d / 60) + 1) ∧
    (∀ (env : ZhangWMS.ZEnv) (st : ZhangWMS.ZState) (t : ℚ) (par s e : Nat),
      (ZhangWMS.createAndSubmitPlaceholderJob env st t par s e).requests.map
        (fun r => r.minutes) = [wallTimeMinutes (t * fudgeFactor)]) := by
  constructor
  · intro d
    rw [wallTimeMinutes, show ((60 : ℚ)) = ((60 : Nat) : ℚ) by norm_num,
      Nat.floor_div_nat]
    omega
  · intro env st t par s e
    rfl

/-! ## Claim C7 — the `"hc"` policy and a nodes-per-cluster of 0 -/

/-- C7.  The spec string `"hc-2-0"` parses into exactly the expected token
shape — first token `hc`, three dash-separated tokens, both parameters
numeric — yet the clustering step *rejects* it (the guard
`num_nodes_per_cluster < 1` at line 184 throws
`invalid_argument("Invalid static:hc specification")`), contradicting the
claim (and the code's own comment at line 187, *"could be 0 nodes, in which
case queue prediction will be triggered"*) that a nodes-per-cluster value of
0 is a legal parameter. -/
theorem hc_zero_nodes_rejected :
    LevelByLevelWMS.createPlaceHolderJobsForLevel cenvC7 0 =
      Except.error WmsError.invalidHCSpec ∧
    LevelByLevelWMS.getlineTokens cenvC7.clustering_spec = [['h', 'c'], ['2'], ['0']] ∧
    LevelByLevelWMS.parseULong ['2'] = some 2 ∧
    LevelByLevelWMS.parseULong ['0'] = some 0 :=
  ⟨rfl, rfl, rfl, rfl⟩

/-! ## Claim C8 — monotonic level order (level-by-level) -/

/-- C8.  `submitPilotJobsForNextLevel` refuses the candidate level (returns
with the state unchanged and no submission) whenever the immediately
preceding level's pending set is non-empty, so a placeholder job for level
`L+1` is never created while level `L` still has a pending placeholder job. -/
theorem lbl_monotonic_level_order (env : LevelByLevelWMS.LEnv)
    (st : LevelByLevelWMS.LState) (kv : Nat × LevelByLevelWMS.LBucket)
    (hc : 0 < LevelByLevelWMS.candidateLevel st.ongoing_levels)
    (hfind : st.ongoing_levels.find?
      (fun kv' => kv'.1 = LevelByLevelWMS.candidateLevel st.ongoing_levels - 1) = some kv)
    (hpend : kv.2.pending_placeholder_jobs ≠ []) :
    LevelByLevelWMS.submitPilotJobsForNextLevel env st = Except.ok (st, []) := by
  simp only [LevelByLevelWMS.submitPilotJobsForNextLevel]
  by_cases h2 : st.ongoing_levels.length ≥ 2
  · rw [if_pos h2]
  · rw [if_neg h2]
    by_cases hov : (¬ env.overlap) ∧ st.ongoing_levels ≠ []
    · rw [if_pos hov]
    · rw [if_neg hov]
      by_cases hnl : LevelByLevelWMS.candidateLevel st.ongoing_levels ≥ env.wf.numLevels
      · rw [if_pos hnl]
      · rw [if_neg hnl, if_pos hc]
        simp only [hfind]
        rw [if_pos hpend]

/-- C8 (witness): with ongoing level 0 still holding the pending job `cphC8`,
the candidate level 1 is refused. -/
theorem lbl_monotonic_level_order_witness :
    LevelByLevelWMS.submitPilotJobsForNextLevel cenvC8 cstC8 = Except.ok (cstC8, []) :=
  lbl_monotonic_level_order cenvC8 cstC8 (0, cbC8) (by decide) rfl (by simp [cbC8])

/-! ## Claim C9 — the uninitialized `leeway` of `groupLevels` -/

/-- C9.  On *every* path through the first `groupLevels` loop iteration that
completes the wait-time query, the local `leeway` — declared at line 599
without an initializer — is read before any assignment to it: the dead
`overlap` computation at line 620 reads it unconditionally, and on the paths
of lines 638-646 that assign nothing, the `leeway > 0` guard at line 649 reads
it unassigned as well.  The instrumented first iteration can therefore never
report "no uninitialized read". -/
theorem zhang_leeway_uninitialized_read :
    ∀ (env : ZhangWMS.ZEnv) (parent : ℚ) (s c seq : Nat),
      ZhangWMS.glIterUninitRead env parent s c seq ≠ Except.ok false := by
  intro env parent s c seq h
  simp only [ZhangWMS.glIterUninitRead] at h
  cases hw : ZhangWMS.estimateWaitTime env (ZhangWMS.maxParallelism env s c)
      (env.makespan s c (ZhangWMS.maxParallelism env s c)) seq with
  | error e => rw [hw] at h; simp [bind, Except.bind] at h
  | ok pr =>
    obtain ⟨pw, sq⟩ := pr
    rw [hw] at h
    simp [bind, Except.bind, pure, Except.pure] at h

/-! ## Claim C10 — reservation-start fatality

The no-placeholder consistency error is raised exactly when no pending
placeholder job exists, and a non-pending start is silently ignored — but the
handler can also abort with an `EstimationFailure` raised by the nested
decision pass it triggers after a *matching* start, so "fatal iff no pending
job" does not hold as stated. -/

/-- The only error `estimateWaitTime` raises is the estimation failure. -/
theorem estimateWaitTime_error (env : ZhangWMS.ZEnv) (p : Nat) (m : ℚ) (seq : Nat)
    (e : WmsError) (h : ZhangWMS.estimateWaitTime env p m seq = Except.error e) :
    e = WmsError.estimationFailure := by
  simp only [ZhangWMS.estimateWaitTime] at h
  split at h
  · simp only [Except.error.injEq] at h
    exact h.symm
  · simp at h

/-- The only error a `groupLevels` loop iteration raises is the estimation
failure. -/
theorem glIter_error (env : ZhangWMS.ZEnv) (parent wAll rAll : ℚ) (s c : Nat)
    (st : ZhangWMS.GLSt) (e : WmsError)
    (h : ZhangWMS.glIter env parent wAll rAll s c st = Except.error e) :
    e = WmsError.estimationFailure := by
  simp only [ZhangWMS.glIter] at h
  split at h
  next e1 heq =>
    simp only [Except.error.injEq] at h
    exact h ▸ estimateWaitTime_error env _ _ _ e1 heq
  next pw1 seq1 heq =>
    split at h
    · split at h
      next e2 heq2 =>
        simp only [Except.error.injEq] at h
        exact h ▸ estimateWaitTime_error env _ _ _ e2 heq2
      next pw1a seq2 heq2 => simp at h
    · simp at h

/-- The only error the `groupLevels` loop raises is the estimation failure. -/
theorem glLoop_error (env : ZhangWMS.ZEnv) (parent wAll rAll : ℚ) (s e : Nat) :
    ∀ (fuel c : Nat) (st : ZhangWMS.GLSt) (err : WmsError),
      ZhangWMS.glLoop env parent wAll rAll s e fuel c st = Except.error err →
      err = WmsError.estimationFailure := by
  intro fuel
  induction fuel with
  | zero => intro c st err h; simp [ZhangWMS.glLoop] at h
  | succ n ih =>
    intro c st err h
    simp only [ZhangWMS.glLoop] at h
    split at h
    · split at h
      next e1 heq =>
        simp only [Except.error.injEq] at h
        exact h ▸ glIter_error env parent wAll rAll s c st e1 heq
      next w r q heq => simp at h
      next st2 heq => exact ih (c + 1) st2 err h
    · simp at h

/-- The only error the grouping-heuristic decision pass raises is the
estimation failure. -/
theorem agh_error (env : ZhangWMS.ZEnv) (st : ZhangWMS.ZState) (e : WmsError)
    (h : ZhangWMS.applyGroupingHeuristic env st = Except.error e) :
    e = WmsError.estimationFailure := by
  simp only [ZhangWMS.applyGroupingHeuristic] at h
  split at h
  · simp at h
  · split at h
    · simp at h
    · split at h
      · simp at h
      · split at h
        · simp at h
        · split at h
          next e1 heq =>
            simp only [Except.error.injEq] at h
            exact h ▸ estimateWaitTime_error env _ _ _ e1 heq
          next wait_all seq1 heq =>
            split at h
            next e2 heq2 =>
              simp only [Except.error.injEq] at h
              exact h ▸ glLoop_error env st.parent_runtime _ _ _ _ _ _ _ e2 heq2
            next w pm pend seq2 heq2 =>
              split at h <;> simp at h

/-- C10 (counterexample).  With a pending placeholder job whose pilot job
matches the started reservation, but a batch estimator that prices nothing
(always returns −1), the reservation-start event *is* fatal — the nested
decision pass aborts with the estimation failure — even though a pending
placeholder job exists, refuting "fatal if and only if no pending placeholder
job exists". -/
theorem zhang_pilot_start_estimation_fatal_cex :
    ZhangWMS.processEventPilotJobStart cenvC10 cstC10 7 =
      Except.error WmsError.estimationFailure ∧
    cstC10.pending_placeholder_job = some cphC10 ∧
    WmsError.estimationFailure ≠ WmsError.noPlaceholderForStartedPilot := by
  refine ⟨?_, rfl, by simp⟩
  norm_num [ZhangWMS.processEventPilotJobStart, ZhangWMS.applyGroupingHeuristic,
    ZhangWMS.getStartLevel, ZhangWMS.startLevelBase, ZhangWMS.levelAllCompleted,
    ZhangWMS.maxParallelism, ZhangWMS.estimateWaitTime, cenvC10, cstC10, cphC10,
    czeroStats, Workflow.tasksInLevel, Workflow.stateOf, Workflow.findTask,
    show List.range 2 = [0, 1] from rfl, List.range', List.filter, List.find?]
  simp

/-- C10 (amended).  The reservation-start handler raises the "couldn't find a
placeholder job" consistency error *iff* no pending placeholder job exists
(the only other abort it can propagate is the estimation failure of the
nested decision pass, which presupposes a pending job existed and matched);
and when a pending job exists but the started reservation is not its pilot
job, the event is silently ignored: the only state change is the
queue-wait-time statistic, and nothing is submitted, dispatched or
cancelled. -/
theorem zhang_pilot_start_amended (env : ZhangWMS.ZEnv) (st : ZhangWMS.ZState)
    (eid : Nat) :
    (ZhangWMS.processEventPilotJobStart env st eid =
        Except.error WmsError.noPlaceholderForStartedPilot ↔
      st.pending_placeholder_job = none) ∧
    (∀ ph, st.pending_placeholder_job = some ph → eid ≠ ph.jobId →
      ZhangWMS.processEventPilotJobStart env st eid = Except.ok
        ⟨{ st with
           stats := { st.stats with
                      total_queue_wait_time :=
                        st.stats.total_queue_wait_time + env.queueWaitOf eid } },
         [], [], []⟩) := by
  constructor
  · constructor
    · intro h
      cases hpend : st.pending_placeholder_job with
      | none => rfl
      | some ph =>
        exfalso
        simp only [ZhangWMS.processEventPilotJobStart, hpend] at h
        by_cases hjid : eid ≠ ph.jobId
        · rw [if_pos hjid] at h
          simp at h
        · rw [if_neg hjid] at h
          split at h
          next e2 hagh =>
            simp only [Except.error.injEq] at h
            have := agh_error env _ e2 hagh
            rw [this] at h
            simp at h
          next out hagh => simp at h
    · intro h
      simp [ZhangWMS.processEventPilotJobStart, h]
  · intro ph hph hne
    simp only [ZhangWMS.processEventPilotJobStart, hph]
    rw [if_pos hne]

/-- C10 (witness): the amended theorem applied to the pending job `cphC10`
(pilot id 7) and a start event for the unrelated pilot id 99: the event is
ignored and only the queue-wait statistic moves. -/
theorem zhang_pilot_start_amended_witness :
    ZhangWMS.processEventPilotJobStart cenvC10 cstC10 99 = Except.ok
      ⟨{ cstC10 with
         stats := { cstC10.stats with
                    total_queue_wait_time :=
                      cstC10.stats.total_queue_wait_time + cenvC10.queueWaitOf 99 } },
       [], [], []⟩ :=
  (zhang_pilot_start_amended cenvC10 cstC10 99).2 cphC10 rfl (by decide)
